import Mathlib

/-!
Verification of the wpantund NCP Task Engine specification against the
repository sources.

Part A embeds `tool_cmd_add_eidcache` from `src/wpanctl/tool-cmd-add-eidcache.c`.
The side-effecting collaborators (getopt, D-Bus, the two parsers
`inet_pton` / `parse_string_into_data`) are abstracted into an environment
record carrying their observable outcomes; the function body itself is
translated control-flow-faithfully: the same chain of checks, the same
`goto bail` paths, the same values assigned to `ret`, the same
`dbus_message_append_args` calls in the same order, and the single
`dbus_connection_send_with_reply_and_block` call.

Part B embeds the Scan Task (`SpinelNCPTaskScan`).  The repository contains
only the class declaration (`src/ncp-spinel/SpinelNCPTaskScan.h`): the
constructor signature `(SpinelNCPInstance*, CallbackWithStatusArg1, uint32_t
channel_mask)`, the fields `uint8_t mChannelMaskData[32]`,
`uint8_t mChannelMaskLen`, `uint16_t mChannelDelayPeriod`, and the virtual
`vprocess_event` / `finish` members.  The member bodies are not in the
repository, so their behavior is modelled from the specification (spec.md
sections 4.1, 4.2, 7), over the exact declared shape from the header.
-/

/- ================= Part A: wpanctl add-eidcache command ================= -/

/-- Error codes from wpanctl-utils.h (header not in the repository).  The
exact numeric values are irrelevant to every claim below; only `0` (success,
`ret` initial value) is meaningful.  They are kept distinct and nonzero. -/
def ERRORCODE_HELP : Int := 1

/-- BADARG error code, nonzero (see ERRORCODE_HELP). -/
def ERRORCODE_BADARG : Int := 2

/-- TIMEOUT error code, nonzero (see ERRORCODE_HELP). -/
def ERRORCODE_TIMEOUT : Int := 3

/-- One argument appended to the outgoing D-Bus method-call message by
`dbus_message_append_args`: either a byte array with an element count, or a
16-bit unsigned integer. -/
inductive DBusArg
  | byteArray (bytes : List Nat) (count : Nat)
  | uint16 (v : Nat)
deriving DecidableEq

/-- Messages the tool prints to stderr, abstracted to tags. -/
inductive ToolMsg
  | helpText
  | extraArgError
  | noInterfaceError
  | connectError
  | badAddress
  | badIid
  | badRloc
  | dbusCallError
  | addedOk
  | cmdFailed
deriving DecidableEq

/-- Observable outcomes of the collaborators `tool_cmd_add_eidcache` calls:
option parsing, `gInterfaceName`, `dbus_bus_get`,
`lookup_dbus_name_from_interface`, `strstr(address, ":")`, `inet_pton`,
`parse_string_into_data` (for address, iid and rloc buffers), and the
blocking D-Bus call.  Byte-buffer contents are the post-parse contents of
the corresponding C arrays; `rlocB0`/`rlocB1` are `rloc_bytes[0]` and
`rloc_bytes[1]` (uint8_t, hence < 256 in any real execution). -/
structure EidEnv where
  helpRequested : Bool
  argsAfterOptions : Nat
  interfaceNameSet : Bool
  connectionOk : Bool
  lookupResult : Int
  addressHasColon : Bool
  inetPtonResult : Int
  addrParseLen : Int
  addrBytes : List Nat
  iidParseLen : Int
  iidBytes : List Nat
  rlocParseLen : Int
  rlocB0 : Nat
  rlocB1 : Nat
  replyOk : Bool
  getArgsOk : Bool
  replyStatus : Int
deriving DecidableEq

/-- The observable result of one invocation: the C `return ret;` value, the
stderr messages printed, and the method calls actually issued over D-Bus
(each with its appended argument list, in append order). -/
structure EidResult where
  ret : Int
  prints : List ToolMsg
  sent : List (List DBusArg)
deriving DecidableEq

/-- Address parse success, lines 143-167 of tool-cmd-add-eidcache.c: with a
colon the address goes through `inet_pton` (bail on `bits < 0` and on
`bits == 0`), otherwise through `parse_string_into_data` (bail on
`length <= 0`). -/
def addrParseOk (env : EidEnv) : Bool :=
  if env.addressHasColon then decide (0 < env.inetPtonResult)
  else decide (0 < env.addrParseLen)

/-- Shallow embedding of `tool_cmd_add_eidcache` (lines 42-259).  `ret`
starts at 0; every `goto bail` path returns the current `ret`.  The three
message arguments are appended in source order (16-byte address array,
8-byte iid array, uint16 rloc16); the single
`dbus_connection_send_with_reply_and_block` call happens only after all
three parses succeed. -/
def tool_cmd_add_eidcache (env : EidEnv) : EidResult :=
  if env.helpRequested then
    { ret := ERRORCODE_HELP, prints := [.helpText], sent := [] }
  else if env.argsAfterOptions < 3 then
    { ret := ERRORCODE_BADARG, prints := [.extraArgError], sent := [] }
  else if env.interfaceNameSet = false then
    { ret := ERRORCODE_BADARG, prints := [.noInterfaceError], sent := [] }
  else if env.connectionOk = false then
    { ret := 0, prints := [.connectError], sent := [] }
  else if env.lookupResult ≠ 0 then
    { ret := env.lookupResult, prints := [], sent := [] }
  else if addrParseOk env = false then
    { ret := 0, prints := [.badAddress], sent := [] }
  else if env.iidParseLen ≤ 0 then
    { ret := 0, prints := [.badIid], sent := [] }
  else if env.rlocParseLen ≤ 0 then
    { ret := 0, prints := [.badRloc], sent := [] }
  else
    let rloc16 := ((env.rlocB0 <<< 8) ||| env.rlocB1) % 65536
    let callArgs := [DBusArg.byteArray env.addrBytes 16,
                     DBusArg.byteArray env.iidBytes 8,
                     DBusArg.uint16 rloc16]
    if env.replyOk = false then
      { ret := ERRORCODE_TIMEOUT, prints := [.dbusCallError], sent := [callArgs] }
    else
      let finalRet := if env.getArgsOk then env.replyStatus else 0
      { ret := finalRet,
        prints := [if finalRet = 0 then .addedOk else .cmdFailed],
        sent := [callArgs] }

/-- An environment in which every check passes and all three arguments
parse; used by the witnesses. -/
def envParseOk : EidEnv :=
  { helpRequested := false
    argsAfterOptions := 3
    interfaceNameSet := true
    connectionOk := true
    lookupResult := 0
    addressHasColon := false
    inetPtonResult := 0
    addrParseLen := 16
    addrBytes := List.replicate 16 0
    iidParseLen := 8
    iidBytes := List.replicate 8 0
    rlocParseLen := 2
    rlocB0 := 171
    rlocB1 := 205
    replyOk := true
    getArgsOk := true
    replyStatus := 0 }

/-- Like `envParseOk` but the iid argument fails to parse. -/
def envBadIid : EidEnv := { envParseOk with iidParseLen := 0 }

/-- C8: when the three positional arguments all parse, exactly one D-Bus
method call is issued, carrying exactly three message arguments in order: a
16-byte address array, an 8-byte interface-identifier array, and a 16-bit
unsigned locator. -/
theorem eidcache_sends_one_call_with_three_args (env : EidEnv)
    (h1 : env.helpRequested = false) (h2 : 3 ≤ env.argsAfterOptions)
    (h3 : env.interfaceNameSet = true) (h4 : env.connectionOk = true)
    (h5 : env.lookupResult = 0) (h6 : addrParseOk env = true)
    (h7 : 0 < env.iidParseLen) (h8 : 0 < env.rlocParseLen) :
    (tool_cmd_add_eidcache env).sent =
      [[DBusArg.byteArray env.addrBytes 16,
        DBusArg.byteArray env.iidBytes 8,
        DBusArg.uint16 (((env.rlocB0 <<< 8) ||| env.rlocB1) % 65536)]] := by
  have h2' : ¬ env.argsAfterOptions < 3 := by omega
  have h7' : ¬ env.iidParseLen ≤ 0 := by omega
  have h8' : ¬ env.rlocParseLen ≤ 0 := by omega
  cases hr : env.replyOk <;>
    simp [tool_cmd_add_eidcache, h1, h2', h3, h4, h5, h6, h7', h8', hr]

/-- Witness for C8 at a concrete environment. -/
theorem eidcache_sends_one_call_with_three_args_witness :
    (tool_cmd_add_eidcache envParseOk).sent =
      [[DBusArg.byteArray envParseOk.addrBytes 16,
        DBusArg.byteArray envParseOk.iidBytes 8,
        DBusArg.uint16 (((envParseOk.rlocB0 <<< 8) ||| envParseOk.rlocB1) % 65536)]] :=
  eidcache_sends_one_call_with_three_args envParseOk rfl (by decide) rfl rfl rfl
    (by decide) (by decide) (by decide)

/-- C9: if the address, iid, or rloc argument fails to parse after the
D-Bus connection and name lookup succeeded, the tool prints an error
message, issues no call, and returns 0 -- the same value as the success
path -- because `ret` (0 after the successful lookup) is never set to an
error code on those bail paths. -/
theorem eidcache_parse_failure_returns_zero (env : EidEnv)
    (h1 : env.helpRequested = false) (h2 : 3 ≤ env.argsAfterOptions)
    (h3 : env.interfaceNameSet = true) (h4 : env.connectionOk = true)
    (h5 : env.lookupResult = 0)
    (h6 : addrParseOk env = false ∨ env.iidParseLen ≤ 0 ∨ env.rlocParseLen ≤ 0) :
    (tool_cmd_add_eidcache env).ret = 0 ∧
    (tool_cmd_add_eidcache env).sent = [] ∧
    ((tool_cmd_add_eidcache env).prints = [.badAddress] ∨
     (tool_cmd_add_eidcache env).prints = [.badIid] ∨
     (tool_cmd_add_eidcache env).prints = [.badRloc]) := by
  have h2' : ¬ env.argsAfterOptions < 3 := by omega
  by_cases ha : addrParseOk env = false
  · simp [tool_cmd_add_eidcache, h1, h2', h3, h4, h5, ha]
  · have ha' : addrParseOk env = true := by
      cases h : addrParseOk env
      · exact absurd h ha
      · rfl
    by_cases hi : env.iidParseLen ≤ 0
    · simp [tool_cmd_add_eidcache, h1, h2', h3, h4, h5, ha', hi]
    · have hr : env.rlocParseLen ≤ 0 := by
        rcases h6 with h | h | h
        · exact absurd h ha
        · exact absurd h hi
        · exact h
      simp [tool_cmd_add_eidcache, h1, h2', h3, h4, h5, ha', hi, hr]

/-- Witness for C9 at a concrete environment (iid fails to parse). -/
theorem eidcache_parse_failure_returns_zero_witness :
    (tool_cmd_add_eidcache envBadIid).ret = 0 ∧
    (tool_cmd_add_eidcache envBadIid).sent = [] ∧
    ((tool_cmd_add_eidcache envBadIid).prints = [.badAddress] ∨
     (tool_cmd_add_eidcache envBadIid).prints = [.badIid] ∨
     (tool_cmd_add_eidcache envBadIid).prints = [.badRloc]) :=
  eidcache_parse_failure_returns_zero envBadIid rfl (by decide) rfl rfl rfl
    (Or.inr (Or.inl (by decide)))

/-- C10: the 16-bit locator transmitted is assembled big-endian from the
parsed bytes: it equals `256 * rloc_bytes[0] + rloc_bytes[1]`. -/
theorem eidcache_rloc16_big_endian (env : EidEnv)
    (h1 : env.helpRequested = false) (h2 : 3 ≤ env.argsAfterOptions)
    (h3 : env.interfaceNameSet = true) (h4 : env.connectionOk = true)
    (h5 : env.lookupResult = 0) (h6 : addrParseOk env = true)
    (h7 : 0 < env.iidParseLen) (h8 : 0 < env.rlocParseLen)
    (hb0 : env.rlocB0 < 256) (hb1 : env.rlocB1 < 256) :
    (tool_cmd_add_eidcache env).sent =
      [[DBusArg.byteArray env.addrBytes 16,
        DBusArg.byteArray env.iidBytes 8,
        DBusArg.uint16 (256 * env.rlocB0 + env.rlocB1)]] := by
  have hor : (env.rlocB0 <<< 8) ||| env.rlocB1 = 256 * env.rlocB0 + env.rlocB1 := by
    have hb1' : env.rlocB1 < 2 ^ 8 := hb1
    have h := Nat.mul_add_lt_is_or hb1' env.rlocB0
    rw [Nat.shiftLeft_eq]
    calc env.rlocB0 * 2 ^ 8 ||| env.rlocB1
        = 2 ^ 8 * env.rlocB0 ||| env.rlocB1 := by rw [Nat.mul_comm]
      _ = 2 ^ 8 * env.rlocB0 + env.rlocB1 := h.symm
      _ = 256 * env.rlocB0 + env.rlocB1 := by norm_num
  have hlt : 256 * env.rlocB0 + env.rlocB1 < 65536 := by omega
  have := eidcache_sends_one_call_with_three_args env h1 h2 h3 h4 h5 h6 h7 h8
  rw [this, hor, Nat.mod_eq_of_lt hlt]

/-- Witness for C10 at a concrete environment: bytes 0xAB 0xCD give
locator 0xABCD = 43981. -/
theorem eidcache_rloc16_big_endian_witness :
    (tool_cmd_add_eidcache envParseOk).sent =
      [[DBusArg.byteArray envParseOk.addrBytes 16,
        DBusArg.byteArray envParseOk.iidBytes 8,
        DBusArg.uint16 (256 * envParseOk.rlocB0 + envParseOk.rlocB1)]] :=
  eidcache_rloc16_big_endian envParseOk rfl (by decide) rfl rfl rfl (by decide)
    (by decide) (by decide) (by decide) (by decide)

/- ===================== Part B: SpinelNCPTaskScan ======================== -/

/-- Task status codes, from the specification's error taxonomy (spec.md
section 7) plus success: `BadArgument`, `Timeout`, `Cancelled`,
`ProtocolError`, `InternalFault`. -/
inductive TaskStatus
  | success
  | badArgument
  | timeoutErr
  | cancelled
  | protocolError
  | internalFault
deriving DecidableEq

/-- Result Value: the tagged union `Empty | Status | List<Record> | Bytes`
(spec.md sections 3 and 9); scan records are opaque and modelled as `Nat`
identifiers. -/
inductive ResultValue
  | empty
  | statusOnly (code : Int)
  | list (records : List Nat)
  | bytes (bs : List Nat)
deriving DecidableEq

/-- Task lifecycle states `Pending`, `Active`, `Finished` (spec.md
section 3). -/
inductive Lifecycle
  | Pending
  | Active
  | Finished
deriving DecidableEq

/-- The Scan Task state.  The fields `mChannelMaskData`, `mChannelMaskLen`
and `mChannelDelayPeriod` are exactly the data members declared in
SpinelNCPTaskScan.h (lines 44-46: `uint8_t mChannelMaskData[32]`,
`uint8_t mChannelMaskLen`, `uint16_t mChannelDelayPeriod`); `mInstance` and
`mCallback` are the base-class members implied by the constructor arguments
(header lines 35-39), kept as opaque handles.  The remaining fields model
the abstract Task state from spec.md section 3: lifecycle, the accumulated
scan-result list, the recorded final (status, result) pair, and the trace
of completion-callback invocations. -/
structure ScanTask where
  mInstance : Nat
  mCallback : Nat
  mChannelMaskData : List Nat
  mChannelMaskLen : Nat
  mChannelDelayPeriod : Nat
  lifecycle : Lifecycle
  scanResults : List Nat
  recorded : Option (TaskStatus × ResultValue)
  callbackInvocations : List (TaskStatus × ResultValue)
deriving DecidableEq

/-- Modelled from the spec: the inter-channel delay period.  The
constructor body is not in the repository; the header's constructor takes
no delay argument (SpinelNCPTaskScan.h lines 35-39), so
`mChannelDelayPeriod` is initialized to a fixed internal default whose
exact value is irrelevant to the claims. -/
def defaultChannelDelayPeriod : Nat := 200

/-- Modelled from the spec: the encoded length (in bytes) of the channel
mask built from the 32-bit constructor argument -- the explicit
encoded-length field supports "sparse/short encodings" (spec.md section 3),
so the length is the number of bytes needed to cover the highest set bit of
the 32-bit mask. -/
def encodedMaskLen (m : Nat) : Nat :=
  if m = 0 then 0
  else if m < 2 ^ 8 then 1
  else if m < 2 ^ 16 then 2
  else if m < 2 ^ 24 then 3
  else 4

/-- Modelled from the spec: the 32-byte fixed-capacity bitmask buffer, one
bit per channel (spec.md section 3: "32 bytes, one bit per channel"), built
from the 32-bit constructor argument; byte `j` holds channels `8j..8j+7`. -/
def maskBytes (m : Nat) : List Nat :=
  (List.range 32).map (fun j => (m >>> (8 * j)) % 256)

/-- Whether channel `c` is a member of the task's stored channel mask:
bit `c % 8` of buffer byte `c / 8`. -/
def channelInMask (t : ScanTask) (c : Nat) : Bool :=
  Nat.testBit (t.mChannelMaskData.getD (c / 8) 0) (c % 8)

/-- Modelled from the spec: the constructor
`SpinelNCPTaskScan(SpinelNCPInstance*, CallbackWithStatusArg1, uint32_t
channel_mask)` (header lines 35-39; body not in the repository).  Per
spec.md section 4.2, a channel mask with zero bits set is rejected at
construction with `BadArgument`, and an encoded mask length exceeding the
32-byte capacity is a constructor-time error.  The `uint32_t` argument is
reduced mod 2^32.  A successfully constructed task is `Pending`, with no
accumulated results and no callback invocations. -/
def scanTaskConstruct (inst cb channel_mask : Nat) : Except TaskStatus ScanTask :=
  let m := channel_mask % 2 ^ 32
  if m = 0 then .error .badArgument
  else if 32 < encodedMaskLen m then .error .badArgument
  else .ok
    { mInstance := inst
      mCallback := cb
      mChannelMaskData := maskBytes m
      mChannelMaskLen := encodedMaskLen m
      mChannelDelayPeriod := defaultChannelDelayPeriod
      lifecycle := .Pending
      scanResults := []
      recorded := none
      callbackInvocations := [] }

/-- Modelled from the spec: `SpinelNCPTaskScan::finish(status, value)`
(header line 41; body not in the repository).  Per spec.md section 4.1,
`finish` transitions the Task to `Finished`, records status and result, and
triggers the single completion-callback invocation; a second call on an
already-`Finished` task is an invariant violation reported as
`InternalFault` (spec.md sections 4.1 and 7) and leaves the task state
unchanged. -/
def ScanTask.finish (t : ScanTask) (status : TaskStatus) (value : ResultValue) :
    ScanTask × Option TaskStatus :=
  if t.lifecycle = .Finished then
    (t, some .internalFault)
  else
    ({ t with
        lifecycle := .Finished
        recorded := some (status, value)
        callbackInvocations := t.callbackInvocations ++ [(status, value)] },
     none)

/-- Events delivered to the active Scan Task (spec.md sections 4.1 and
4.2): a property-inserted scan-result record, the scan-complete status
event, the property-value event reporting the scan state returned to idle,
an NCP-reported failure status, a transport reset, the Instance-level
timeout, and unrelated asynchronous chatter. -/
inductive ScanEvent
  | scanResult (record : Nat)
  | scanComplete
  | scanStateIdle
  | ncpFailureStatus
  | transportReset
  | timeoutFired
  | unrelated
deriving DecidableEq

/-- Events that resolve the scan (everything except a scan-result record
and unrecognized chatter). -/
def ScanEvent.isTerminal : ScanEvent → Bool
  | .scanResult _ => false
  | .unrelated => false
  | _ => true

/-- Outbound Spinel frames emitted by the Scan Task (spec.md section 4.2
Init state): the set-channel-mask property write, the set-scan-period
property write, and the begin-scan command. -/
inductive SpinelFrame
  | setChannelMask (data : List Nat) (len : Nat)
  | setScanPeriod (period : Nat)
  | beginScan
deriving DecidableEq

/-- Modelled from the spec: one step of `vprocess_event` (header line 40;
body not in the repository), following the spec.md section 4.2 state
machine.  A task receives events only while `Active` (spec.md section 3);
scan-result records are appended in arrival order; scan-complete or
scan-state-idle finishes with success and the accumulated list; an
NCP-reported failure finishes with ProtocolError; a transport reset
finishes with Cancelled; the Instance-level timeout finishes with Timeout
and the partial results; unrecognized events are ignored. -/
def scanStep (t : ScanTask) (e : ScanEvent) : ScanTask :=
  if t.lifecycle = .Active then
    match e with
    | .scanResult r => { t with scanResults := t.scanResults ++ [r] }
    | .scanComplete => (t.finish .success (.list t.scanResults)).1
    | .scanStateIdle => (t.finish .success (.list t.scanResults)).1
    | .ncpFailureStatus => (t.finish .protocolError (.list t.scanResults)).1
    | .transportReset => (t.finish .cancelled (.list t.scanResults)).1
    | .timeoutFired => (t.finish .timeoutErr (.list t.scanResults)).1
    | .unrelated => t
  else t

/-- Modelled from the spec: activation of a Scan Task (spec.md section 4.2
Init state): the task becomes `Active` and emits exactly three outbound
frames in fixed order -- set-channel-mask, set-scan-period, begin-scan. -/
def scanActivate (t : ScanTask) : ScanTask × List SpinelFrame :=
  ({ t with lifecycle := .Active },
   [SpinelFrame.setChannelMask t.mChannelMaskData t.mChannelMaskLen,
    SpinelFrame.setScanPeriod t.mChannelDelayPeriod,
    SpinelFrame.beginScan])

/-- Processing of a whole event sequence by the active task. -/
def scanRun (t : ScanTask) : List ScanEvent → ScanTask
  | [] => t
  | e :: es => scanRun (scanStep t e) es

/-- The full submission pipeline for one Scan Task: construct, and on
success activate and run; construction failure resolves synchronously and
never reaches the async pipeline (spec.md section 7). -/
def scanSubmit (inst cb channel_mask : Nat) (es : List ScanEvent) :
    Except TaskStatus (ScanTask × List SpinelFrame) :=
  match scanTaskConstruct inst cb channel_mask with
  | .error e => .error e
  | .ok t =>
      let act := scanActivate t
      .ok (scanRun act.1 es, act.2)

/-- The outbound frames a pipeline outcome produced (none on a
construction error). -/
def framesOf : Except TaskStatus (ScanTask × List SpinelFrame) → List SpinelFrame
  | .error _ => []
  | .ok p => p.2

/-- A successfully constructed Scan Task is exactly the record built by the
constructor: the header fields filled from the 32-bit mask, `Pending`
lifecycle, empty result list, no recorded outcome, no callback invocations. -/
theorem scanTaskConstruct_ok {inst cb m : Nat} {t : ScanTask}
    (h : scanTaskConstruct inst cb m = .ok t) :
    t = { mInstance := inst
          mCallback := cb
          mChannelMaskData := maskBytes (m % 2 ^ 32)
          mChannelMaskLen := encodedMaskLen (m % 2 ^ 32)
          mChannelDelayPeriod := defaultChannelDelayPeriod
          lifecycle := .Pending
          scanResults := []
          recorded := none
          callbackInvocations := [] } := by
  simp only [scanTaskConstruct] at h
  split at h
  · exact absurd h (by simp)
  · split at h
    · exact absurd h (by simp)
    · injection h with h
      exact h.symm

/-- A task that is not `Active` ignores every event (events are delivered
only to the active task). -/
theorem scanStep_not_active {t : ScanTask} (e : ScanEvent)
    (h : ¬ t.lifecycle = .Active) : scanStep t e = t := by
  simp [scanStep, h]

/-- A `Finished` task ignores every event. -/
theorem scanStep_finished {t : ScanTask} (e : ScanEvent)
    (h : t.lifecycle = .Finished) : scanStep t e = t :=
  scanStep_not_active e (by simp [h])

/-- A `Finished` task is unchanged by any event sequence. -/
theorem scanRun_finished {t : ScanTask} (es : List ScanEvent)
    (h : t.lifecycle = .Finished) : scanRun t es = t := by
  induction es with
  | nil => rfl
  | cons e es ih =>
      calc scanRun t (e :: es) = scanRun (scanStep t e) es := rfl
        _ = scanRun t es := by rw [scanStep_finished e h]
        _ = t := ih

/-- Running a concatenation of event sequences is running them in turn. -/
theorem scanRun_append (t : ScanTask) (xs ys : List ScanEvent) :
    scanRun t (xs ++ ys) = scanRun (scanRun t xs) ys := by
  induction xs generalizing t with
  | nil => rfl
  | cons e es ih =>
      show scanRun (scanStep t e) (es ++ ys) = scanRun (scanRun (scanStep t e) es) ys
      exact ih (scanStep t e)

/-- An active task appends an inbound scan-result record to its accumulated
list, in arrival order. -/
theorem scanStep_active_scanResult {t : ScanTask} (r : Nat)
    (h : t.lifecycle = .Active) :
    scanStep t (.scanResult r) = { t with scanResults := t.scanResults ++ [r] } := by
  simp [scanStep, h]

/-- An active task hit by a terminal event becomes `Finished`, records a
status together with the accumulated result list, and gains exactly one
callback invocation. -/
theorem scanStep_active_terminal {t : ScanTask} {e : ScanEvent}
    (h : t.lifecycle = .Active) (ht : e.isTerminal = true) :
    ∃ s, scanStep t e =
      { t with
          lifecycle := .Finished
          recorded := some (s, .list t.scanResults)
          callbackInvocations := t.callbackInvocations ++ [(s, .list t.scanResults)] } := by
  have hnf : ¬ t.lifecycle = .Finished := by simp [h]
  cases e with
  | scanResult r => simp [ScanEvent.isTerminal] at ht
  | unrelated => simp [ScanEvent.isTerminal] at ht
  | scanComplete => exact ⟨.success, by simp [scanStep, h, ScanTask.finish, hnf]⟩
  | scanStateIdle => exact ⟨.success, by simp [scanStep, h, ScanTask.finish, hnf]⟩
  | ncpFailureStatus => exact ⟨.protocolError, by simp [scanStep, h, ScanTask.finish, hnf]⟩
  | transportReset => exact ⟨.cancelled, by simp [scanStep, h, ScanTask.finish, hnf]⟩
  | timeoutFired => exact ⟨.timeoutErr, by simp [scanStep, h, ScanTask.finish, hnf]⟩

/-- Core exactly-once run lemma: starting `Active` with no callback
invocations, any event sequence containing a terminal event leaves the task
`Finished` with exactly one callback invocation. -/
theorem scanRun_terminal (es : List ScanEvent) :
    ∀ t : ScanTask, t.lifecycle = .Active → t.callbackInvocations = [] →
    es.any ScanEvent.isTerminal = true →
    (scanRun t es).lifecycle = .Finished ∧
    (scanRun t es).callbackInvocations.length = 1 := by
  induction es with
  | nil => intro t _ _ hterm; simp at hterm
  | cons e es ih =>
      intro t ha hc hterm
      by_cases he : e.isTerminal = true
      · obtain ⟨s, hs⟩ := scanStep_active_terminal ha he
        have hrun : scanRun t (e :: es) = scanStep t e := by
          show scanRun (scanStep t e) es = scanStep t e
          apply scanRun_finished
          rw [hs]
        rw [hrun, hs]
        exact ⟨rfl, by simp [hc]⟩
      · have hterm' : es.any ScanEvent.isTerminal = true := by
          simp only [List.any_cons, Bool.or_eq_true] at hterm
          rcases hterm with h | h
          · exact absurd h he
          · exact h
        cases e with
        | scanResult r =>
            have h1 : scanRun t (ScanEvent.scanResult r :: es) =
                scanRun (scanStep t (.scanResult r)) es := rfl
            rw [h1, scanStep_active_scanResult r ha]
            exact ih _ ha hc hterm'
        | unrelated =>
            have h1 : scanRun t (ScanEvent.unrelated :: es) =
                scanRun (scanStep t .unrelated) es := rfl
            have hstep : scanStep t .unrelated = t := by simp [scanStep, ha]
            rw [h1, hstep]
            exact ih t ha hc hterm'
        | scanComplete => exact absurd rfl he
        | scanStateIdle => exact absurd rfl he
        | ncpFailureStatus => exact absurd rfl he
        | transportReset => exact absurd rfl he
        | timeoutFired => exact absurd rfl he

/-- Feeding an active task a sequence of scan-result records appends them
all, in arrival order, leaving the task `Active`. -/
theorem scanRun_results (rs : List Nat) :
    ∀ t : ScanTask, t.lifecycle = .Active →
    scanRun t (rs.map ScanEvent.scanResult) =
      { t with scanResults := t.scanResults ++ rs } := by
  induction rs with
  | nil => intro t _; simp [scanRun]
  | cons r rs ih =>
      intro t ha
      have h1 : scanRun t ((r :: rs).map ScanEvent.scanResult) =
          scanRun (scanStep t (.scanResult r)) (rs.map ScanEvent.scanResult) := rfl
      rw [h1, scanStep_active_scanResult r ha,
          ih { t with scanResults := t.scanResults ++ [r] } ha]
      simp


deriving instance DecidableEq for Except

/-- A concrete constructed Scan Task (mask bit 11 set), used by witnesses. -/
def scanTaskEx : ScanTask :=
  { mInstance := 0
    mCallback := 0
    mChannelMaskData := maskBytes 2048
    mChannelMaskLen := 2
    mChannelDelayPeriod := defaultChannelDelayPeriod
    lifecycle := .Pending
    scanResults := []
    recorded := none
    callbackInvocations := [] }

/-- C1: for every constructed and activated Scan Task and every delivered
event sequence that contains a terminal event (scan-complete, timeout,
transport-reset/cancellation, or NCP protocol error -- the Instance
guarantees one is eventually delivered), the completion callback is invoked
exactly once, and only after the task has reached `Finished`; no task is
resolved twice. -/
theorem scan_callback_exactly_once (inst cb m : Nat) (t : ScanTask)
    (es : List ScanEvent)
    (hc : scanTaskConstruct inst cb m = .ok t)
    (hterm : es.any ScanEvent.isTerminal = true) :
    (scanRun (scanActivate t).1 es).lifecycle = .Finished ∧
    (scanRun (scanActivate t).1 es).callbackInvocations.length = 1 := by
  have ht := scanTaskConstruct_ok hc
  subst ht
  exact scanRun_terminal es _ rfl rfl hterm

/-- Witness for C1: a constructed task driven to timeout fires its callback
exactly once. -/
theorem scan_callback_exactly_once_witness :
    (scanRun (scanActivate scanTaskEx).1 [ScanEvent.timeoutFired]).lifecycle = .Finished ∧
    (scanRun (scanActivate scanTaskEx).1
      [ScanEvent.timeoutFired]).callbackInvocations.length = 1 :=
  scan_callback_exactly_once 0 0 2048 scanTaskEx [ScanEvent.timeoutFired]
    (by decide) (by decide)

/-- C3: the first `finish` call on a not-yet-`Finished` task transitions it
to `Finished`, records status and result, and triggers the single callback
invocation with no fault; a second `finish` on an already-`Finished` task
is reported as `InternalFault` (not silently swallowed) and leaves the
recorded outcome unchanged. -/
theorem scan_finish_double_call_internal_fault (t : ScanTask) (s : TaskStatus)
    (v : ResultValue) :
    (t.lifecycle = .Finished →
      t.finish s v = (t, some TaskStatus.internalFault)) ∧
    (¬ t.lifecycle = .Finished →
      (t.finish s v).1.lifecycle = .Finished ∧
      (t.finish s v).1.recorded = some (s, v) ∧
      (t.finish s v).1.callbackInvocations = t.callbackInvocations ++ [(s, v)] ∧
      (t.finish s v).2 = none) := by
  constructor
  · intro h; simp [ScanTask.finish, h]
  · intro h; simp [ScanTask.finish, h]

/-- Witness for C3: a `Finished` task reports `InternalFault` on a second
`finish`, and a fresh task's first `finish` records its status and result. -/
theorem scan_finish_double_call_internal_fault_witness :
    ({ scanTaskEx with lifecycle := .Finished } : ScanTask).finish .success .empty
      = ({ scanTaskEx with lifecycle := .Finished }, some TaskStatus.internalFault) ∧
    (scanTaskEx.finish .success .empty).1.recorded
      = some (TaskStatus.success, ResultValue.empty) :=
  ⟨(scan_finish_double_call_internal_fault
      { scanTaskEx with lifecycle := .Finished } .success .empty).1 rfl,
   ((scan_finish_double_call_internal_fault scanTaskEx .success .empty).2
      (by decide)).2.1⟩

/-- C4: activation of a constructed Scan Task emits exactly three outbound
frames in the fixed order set-channel-mask, set-scan-period, begin-scan;
inbound scan-result events append their records in arrival order; and a
terminal scan-complete event finishes the task with success and the full
accumulated record list as the callback's Result Value. -/
theorem scan_init_frames_and_complete (inst cb m : Nat) (t : ScanTask)
    (records : List Nat)
    (hc : scanTaskConstruct inst cb m = .ok t) :
    (scanActivate t).2 =
      [SpinelFrame.setChannelMask t.mChannelMaskData t.mChannelMaskLen,
       SpinelFrame.setScanPeriod t.mChannelDelayPeriod,
       SpinelFrame.beginScan] ∧
    (scanActivate t).2.length = 3 ∧
    (scanRun (scanActivate t).1 (records.map ScanEvent.scanResult)).scanResults
      = records ∧
    (scanRun (scanActivate t).1
        (records.map ScanEvent.scanResult ++ [ScanEvent.scanComplete])).callbackInvocations
      = [(TaskStatus.success, ResultValue.list records)] := by
  have ht := scanTaskConstruct_ok hc
  subst ht
  refine ⟨rfl, rfl, ?_, ?_⟩
  · rw [scanRun_results records _ rfl]
    simp [scanActivate]
  · rw [scanRun_append, scanRun_results records _ rfl]
    simp [scanRun, scanStep, ScanTask.finish, scanActivate]

/-- Witness for C4 at a concrete task and three concrete records. -/
theorem scan_init_frames_and_complete_witness :
    (scanActivate scanTaskEx).2 =
      [SpinelFrame.setChannelMask scanTaskEx.mChannelMaskData scanTaskEx.mChannelMaskLen,
       SpinelFrame.setScanPeriod scanTaskEx.mChannelDelayPeriod,
       SpinelFrame.beginScan] ∧
    (scanActivate scanTaskEx).2.length = 3 ∧
    (scanRun (scanActivate scanTaskEx).1
        ([7, 8, 9].map ScanEvent.scanResult)).scanResults = [7, 8, 9] ∧
    (scanRun (scanActivate scanTaskEx).1
        ([7, 8, 9].map ScanEvent.scanResult ++ [ScanEvent.scanComplete])).callbackInvocations
      = [(TaskStatus.success, ResultValue.list [7, 8, 9])] :=
  scan_init_frames_and_complete 0 0 2048 scanTaskEx [7, 8, 9] (by decide)

/-- C5: if the Instance-level timeout fires after k scan-result records
have accumulated and before completion, the task finishes with `Timeout`
and the callback receives exactly those k records -- none lost, none
duplicated. -/
theorem scan_timeout_preserves_partial_results (inst cb m : Nat) (t : ScanTask)
    (records : List Nat)
    (hc : scanTaskConstruct inst cb m = .ok t) :
    (scanRun (scanActivate t).1
        (records.map ScanEvent.scanResult ++ [ScanEvent.timeoutFired])).callbackInvocations
      = [(TaskStatus.timeoutErr, ResultValue.list records)] ∧
    (scanRun (scanActivate t).1
        (records.map ScanEvent.scanResult ++ [ScanEvent.timeoutFired])).recorded
      = some (TaskStatus.timeoutErr, ResultValue.list records) ∧
    (scanRun (scanActivate t).1
        (records.map ScanEvent.scanResult ++ [ScanEvent.timeoutFired])).lifecycle
      = .Finished := by
  have ht := scanTaskConstruct_ok hc
  subst ht
  rw [scanRun_append, scanRun_results records _ rfl]
  refine ⟨?_, ?_, ?_⟩ <;> simp [scanRun, scanStep, ScanTask.finish, scanActivate]

/-- Witness for C5: timeout after two of the expected records arrived
returns exactly those two records with `Timeout`. -/
theorem scan_timeout_preserves_partial_results_witness :
    (scanRun (scanActivate scanTaskEx).1
        ([4, 5].map ScanEvent.scanResult ++ [ScanEvent.timeoutFired])).callbackInvocations
      = [(TaskStatus.timeoutErr, ResultValue.list [4, 5])] ∧
    (scanRun (scanActivate scanTaskEx).1
        ([4, 5].map ScanEvent.scanResult ++ [ScanEvent.timeoutFired])).recorded
      = some (TaskStatus.timeoutErr, ResultValue.list [4, 5]) ∧
    (scanRun (scanActivate scanTaskEx).1
        ([4, 5].map ScanEvent.scanResult ++ [ScanEvent.timeoutFired])).lifecycle
      = .Finished :=
  scan_timeout_preserves_partial_results 0 0 2048 scanTaskEx [4, 5] (by decide)

/-- C6: a channel mask with zero bits set is rejected at construction with
`BadArgument`; the task never reaches the async pipeline and no outbound
frame is ever produced for it. -/
theorem scan_empty_mask_rejected (inst cb m : Nat) (es : List ScanEvent)
    (h : m % 2 ^ 32 = 0) :
    scanTaskConstruct inst cb m = .error TaskStatus.badArgument ∧
    scanSubmit inst cb m es = .error TaskStatus.badArgument ∧
    framesOf (scanSubmit inst cb m es) = [] := by
  have h1 : scanTaskConstruct inst cb m = .error .badArgument := by
    have h' : m % 4294967296 = 0 := by norm_num at h; exact h
    simp [scanTaskConstruct, h']
  refine ⟨h1, ?_, ?_⟩ <;> simp [scanSubmit, h1, framesOf]

/-- Witness for C6 at mask 0. -/
theorem scan_empty_mask_rejected_witness :
    scanTaskConstruct 0 0 0 = .error TaskStatus.badArgument ∧
    scanSubmit 0 0 0 [] = .error TaskStatus.badArgument ∧
    framesOf (scanSubmit 0 0 0 []) = [] :=
  scan_empty_mask_rejected 0 0 0 [] (by decide)

/-- The encoded mask length computed from the 32-bit constructor argument
never exceeds 4 bytes (hence never the 32-byte capacity). -/
theorem encodedMaskLen_le_four (m : Nat) : encodedMaskLen m ≤ 4 := by
  unfold encodedMaskLen
  split
  · omega
  · split
    · omega
    · split
      · omega
      · split <;> omega

/-- Construction succeeds for every nonzero (mod 2^32) mask and yields the
record built from the reduced mask. -/
theorem scanTaskConstruct_ok_of (inst cb m : Nat) (h0 : ¬ m % 2 ^ 32 = 0) :
    scanTaskConstruct inst cb m = .ok
      { mInstance := inst
        mCallback := cb
        mChannelMaskData := maskBytes (m % 2 ^ 32)
        mChannelMaskLen := encodedMaskLen (m % 2 ^ 32)
        mChannelDelayPeriod := defaultChannelDelayPeriod
        lifecycle := .Pending
        scanResults := []
        recorded := none
        callbackInvocations := [] } := by
  have hlen : ¬ 32 < encodedMaskLen (m % 2 ^ 32) := by
    have := encodedMaskLen_le_four (m % 2 ^ 32)
    omega
  simp only [scanTaskConstruct]
  rw [if_neg h0, if_neg hlen]

/-- Byte `j` of the mask buffer, for `j` within the 32-byte capacity. -/
theorem maskBytes_getD (m j : Nat) (h : j < 32) :
    (maskBytes m).getD j 0 = (m >>> (8 * j)) % 256 := by
  simp [maskBytes, List.getD_eq_getElem?_getD, List.getElem?_map,
    List.getElem?_range, h]

/-- Counterexample for C2: no construction whatsoever can place channel 255
(or any channel ≥ 32) in the stored mask, because the constructor's input
is a `uint32_t`: the claim that the mask "can represent any set of channel
numbers 0 through 255" is false for every construction attempt. -/
theorem scan_mask_channel_255_not_representable :
    ¬ ∃ inst cb m t, scanTaskConstruct inst cb m = .ok t ∧
      channelInMask t 255 = true := by
  rintro ⟨inst, cb, m, t, hok, hbit⟩
  have ht := scanTaskConstruct_ok hok
  subst ht
  have h31 : (255 : Nat) / 8 = 31 := by norm_num
  have h7 : (255 : Nat) % 8 = 7 := by norm_num
  rw [channelInMask] at hbit
  simp only [h31, h7] at hbit
  rw [maskBytes_getD _ 31 (by omega)] at hbit
  have hm : m % 2 ^ 32 < 2 ^ (8 * 31) := by
    have h1 : m % 2 ^ 32 < 2 ^ 32 := Nat.mod_lt _ (by norm_num)
    have h2 : (2 : Nat) ^ 32 ≤ 2 ^ (8 * 31) := Nat.pow_le_pow_right (by norm_num) (by norm_num)
    omega
  have hz : (m % 2 ^ 32) >>> (8 * 31) = 0 := by
    rw [Nat.shiftRight_eq_div_pow]
    exact Nat.div_eq_of_lt hm
  rw [hz] at hbit
  simp at hbit

/-- C2 amended: the channel mask can represent the channels expressible by
the constructor's 32-bit input (0 through 31): each such channel is
realizable by some construction; the storage is the fixed-capacity 32-byte
buffer with an explicit encoded-length field, and the encoded length never
exceeds the 32-byte capacity (a longer encoding is rejected at
construction). -/
theorem scan_mask_represents_channels_0_31 (c : Nat) (h : c < 32) :
    ∃ m t, scanTaskConstruct 0 0 m = .ok t ∧ channelInMask t c = true ∧
      t.mChannelMaskData.length = 32 ∧ t.mChannelMaskLen ≤ 32 := by
  have hmlt : 2 ^ c < 2 ^ 32 := Nat.pow_lt_pow_right (by norm_num) h
  have hmod : 2 ^ c % 2 ^ 32 = 2 ^ c := Nat.mod_eq_of_lt hmlt
  have hpos : 0 < 2 ^ c := Nat.pos_pow_of_pos c (by norm_num)
  have h0 : ¬ 2 ^ c % 2 ^ 32 = 0 := by omega
  refine ⟨2 ^ c, _, scanTaskConstruct_ok_of 0 0 (2 ^ c) h0, ?_, ?_, ?_⟩
  · rw [channelInMask]
    show Nat.testBit ((maskBytes (2 ^ c % 2 ^ 32)).getD (c / 8) 0) (c % 8) = true
    rw [maskBytes_getD _ (c / 8) (by omega), hmod]
    have hle : 8 * (c / 8) ≤ c := by omega
    have hshift : (2 ^ c) >>> (8 * (c / 8)) = 2 ^ (c % 8) := by
      rw [Nat.shiftRight_eq_div_pow, Nat.pow_div hle (by norm_num)]
      congr 1
      omega
    rw [hshift]
    have hsmall : 2 ^ (c % 8) < 256 := by
      have : c % 8 < 8 := Nat.mod_lt _ (by norm_num)
      calc 2 ^ (c % 8) < 2 ^ 8 := Nat.pow_lt_pow_right (by norm_num) this
        _ = 256 := by norm_num
    rw [Nat.mod_eq_of_lt hsmall]
    exact Nat.testBit_two_pow_self
  · show (maskBytes (2 ^ c % 2 ^ 32)).length = 32
    simp [maskBytes]
  · show encodedMaskLen (2 ^ c % 2 ^ 32) ≤ 32
    have := encodedMaskLen_le_four (2 ^ c % 2 ^ 32)
    omega

/-- Witness for the amended C2 at channel 11. -/
theorem scan_mask_represents_channels_0_31_witness :
    ∃ m t, scanTaskConstruct 0 0 m = .ok t ∧ channelInMask t 11 = true ∧
      t.mChannelMaskData.length = 32 ∧ t.mChannelMaskLen ≤ 32 :=
  scan_mask_represents_channels_0_31 11 (by decide)

/-- Counterexample for C7: the constructor (instance, callback,
channel_mask -- header lines 35-39) has no delay parameter, so the factory
caller cannot supply the inter-channel delay: no construction yields any
delay other than the fixed internal default. -/
theorem scan_delay_not_caller_suppliable :
    ¬ ∃ inst cb m t, scanTaskConstruct inst cb m = .ok t ∧
      t.mChannelDelayPeriod = defaultChannelDelayPeriod + 1 := by
  rintro ⟨inst, cb, m, t, hok, hd⟩
  have ht := scanTaskConstruct_ok hok
  subst ht
  simp at hd

/-- C7 amended: every Scan Task is constructed with the target NCP
Instance, the completion callback, and the channel set; the inter-channel
delay is not a construction parameter -- `mChannelDelayPeriod` is
initialized internally by the task to its fixed default. -/
theorem scan_ctor_parameters (inst cb m : Nat) (t : ScanTask)
    (hc : scanTaskConstruct inst cb m = .ok t) :
    t.mInstance = inst ∧ t.mCallback = cb ∧
    t.mChannelDelayPeriod = defaultChannelDelayPeriod := by
  have ht := scanTaskConstruct_ok hc
  subst ht
  exact ⟨rfl, rfl, rfl⟩

/-- Witness for the amended C7 at a concrete construction. -/
theorem scan_ctor_parameters_witness :
    scanTaskEx.mInstance = 0 ∧ scanTaskEx.mCallback = 0 ∧
    scanTaskEx.mChannelDelayPeriod = defaultChannelDelayPeriod :=
  scan_ctor_parameters 0 0 2048 scanTaskEx (by decide)
